import Mathlib

/-!
Shallow embedding of the Calcount calorie-tracking backend.

The model follows the TypeScript source:
* `drizzle/schema.ts` — table row shapes (`FoodEntry`, `SummaryRow`, `GoalsRow`);
* `server/db.ts` — the data-access layer (namespace `Db`);
* the food tRPC router (`foodRouter`, namespace `FoodRouter`), including the
  zod input schemas, modelled as boolean validators that gate each mutation;
* `client/src/components/BMICalculator.tsx` — the pure BMI/TDEE/macro
  derivation (namespace `BMICalculator`).

Conventions of the embedding:
* timestamps are integers (milliseconds since epoch); the JS
  `setHours(0,0,0,0)` / `setHours(23,59,59,999)` truncations are modelled with
  an explicit fixed timezone offset `tz` (milliseconds added to UTC to obtain
  local time), so `startOfDay tz t` is the local midnight at or before `t`;
* JS numbers are embedded as exact rationals (`ℚ`); integer columns as `ℤ`;
  every concrete value proved about below is far enough from rounding
  boundaries that double rounding and exact rational rounding agree;
* the database is a record of lists in insertion order with explicit
  auto-increment counters; SQL `ORDER BY` is a stable sort of that list;
* fallible procedures return `Except`; the zod validation layer runs before
  the handler, so a validation error produces no state change;
* the external LLM (`invokeLLM` plus response parsing) is an oracle passed in
  as an `Except` value: `Except.error` covers both a failed call and a
  missing/unparseable response body;
* `updatedAt`/`createdAt` bookkeeping columns not read by any claim are kept
  only where a claim depends on them (`createdAt` for ordering).
-/

set_option maxRecDepth 4000
set_option maxHeartbeats 1000000

namespace Calcount

/-- Milliseconds in one day, the granularity of the day-bucket truncation. -/
def msPerDay : ℤ := 86400000

/-- JS `Math.round`: round half toward positive infinity, i.e. the floor of
`q + 1/2` (written with the executable `Rat.floor`). -/
def jsRound (q : ℚ) : ℤ := (q + 1 / 2).floor

/-- Rounding agrees with the mathematical floor of `q + 1/2`. -/
theorem jsRound_eq_floor (q : ℚ) : jsRound q = ⌊q + 1 / 2⌋ := by
  rw [jsRound, Rat.floor_def, Rat.floor_def']

/-- Local midnight at or before `t`, for a fixed timezone offset `tz`
(milliseconds to add to a UTC instant to obtain local clock time).
Models `new Date(date).setHours(0, 0, 0, 0)` in `server/db.ts`. -/
def startOfDay (tz t : ℤ) : ℤ := t - (t + tz) % msPerDay

/-- Last millisecond of the local day of `t`.
Models `new Date(date).setHours(23, 59, 59, 999)` in `server/db.ts`. -/
def endOfDay (tz t : ℤ) : ℤ := startOfDay tz t + msPerDay - 1

/-- The `mealTime` enum of the `foodEntries` table. -/
inductive MealTime
  | morning
  | noon
  | evening
  | lateNight
deriving DecidableEq, Repr

/-- The `source` enum of the `foodEntries` table. -/
inductive FoodSource
  | manual
  | image
  | barcode
deriving DecidableEq, Repr

/-- A row of the `foodEntries` table (`drizzle/schema.ts`). -/
structure FoodEntry where
  id : ℕ
  userId : ℕ
  foodName : String
  mealTime : MealTime
  calories : ℤ
  protein : ℚ
  carbs : ℚ
  fats : ℚ
  quantity : ℚ
  unit : String
  imageUrl : Option String
  barcode : Option String
  source : FoodSource
  createdAt : ℤ
  date : ℤ
deriving DecidableEq, Repr

/-- The four nutrient totals accumulated by the router and returned by the
daily-summary query. -/
structure Totals where
  totalCalories : ℤ
  totalProtein : ℚ
  totalCarbs : ℚ
  totalFats : ℚ
deriving DecidableEq, Repr

/-- A row of the `dailySummary` table (`drizzle/schema.ts`). -/
structure SummaryRow where
  id : ℕ
  userId : ℕ
  date : ℤ
  totalCalories : ℤ
  totalProtein : ℚ
  totalCarbs : ℚ
  totalFats : ℚ
deriving DecidableEq, Repr

/-- A row of the `userGoals` table (`drizzle/schema.ts`). The `gender` and
`activityLevel` enum columns are embedded as strings; the zod layer only ever
passes the enum literals. -/
structure GoalsRow where
  id : ℕ
  userId : ℕ
  height : Option ℚ
  weight : Option ℚ
  age : Option ℚ
  gender : Option String
  activityLevel : Option String
  dailyCalories : ℤ
  dailyProtein : ℚ
  dailyCarbs : ℚ
  dailyFats : ℚ
deriving DecidableEq, Repr

/-- The relational store: each table as a list in insertion order, plus the
auto-increment counters. (`users` and `customFoods` are not touched by any
claim and are omitted.) -/
structure DbState where
  entries : List FoodEntry
  summaries : List SummaryRow
  goals : List GoalsRow
  nextEntryId : ℕ
  nextSummaryId : ℕ
  nextGoalsId : ℕ
deriving DecidableEq, Repr

/-- The payload of `AddFoodEntrySchema` after zod has applied the
`quantity`/`unit` defaults; `userId` is added by the router from the auth
context. -/
structure AddFoodInput where
  foodName : String
  mealTime : MealTime
  calories : ℤ
  protein : ℚ
  carbs : ℚ
  fats : ℚ
  quantity : ℚ
  unit : String
  imageUrl : Option String
  barcode : Option String
  source : FoodSource
  date : ℤ
deriving DecidableEq, Repr

/-- The payload of `AddFoodEntrySchema.partial()` used by `updateFood`:
every field optional, present fields overwrite the stored row. -/
structure UpdateFoodData where
  foodName : Option String
  mealTime : Option MealTime
  calories : Option ℤ
  protein : Option ℚ
  carbs : Option ℚ
  fats : Option ℚ
  quantity : Option ℚ
  unit : Option String
  imageUrl : Option String
  barcode : Option String
  source : Option FoodSource
  date : Option ℤ
deriving DecidableEq, Repr

/-- The `updateGoals` input: every field optional (zod `.optional()`). -/
structure UpdateGoalsInput where
  height : Option ℚ
  weight : Option ℚ
  age : Option ℚ
  gender : Option String
  activityLevel : Option String
  dailyCalories : Option ℤ
  dailyProtein : Option ℚ
  dailyCarbs : Option ℚ
  dailyFats : Option ℚ
deriving DecidableEq, Repr

/-- Predicate selecting the rows returned by `getFoodEntriesByDate`:
same owner, and `date` within the local-day window of the queried date. -/
def entryInWindow (tz : ℤ) (uid : ℕ) (date : ℤ) (e : FoodEntry) : Bool :=
  decide (e.userId = uid ∧ startOfDay tz date ≤ e.date ∧ e.date ≤ endOfDay tz date)

/-- Comparison used by `ORDER BY foodEntries.createdAt`. -/
def createdLe (a b : FoodEntry) : Prop := a.createdAt ≤ b.createdAt

instance : DecidableRel createdLe := fun a b => Int.decLe a.createdAt b.createdAt

instance : IsTotal FoodEntry createdLe := ⟨fun a b => Int.le_total a.createdAt b.createdAt⟩

instance : IsTrans FoodEntry createdLe := ⟨fun _ _ _ h h' => Int.le_trans h h'⟩

namespace Db

/-- Models `db.insert(foodEntries).values(entry)` for the payload assembled by the
router: the database assigns the auto-increment id and the `createdAt`
default (`now`). -/
def addFoodEntry (s : DbState) (now : ℤ) (uid : ℕ) (i : AddFoodInput) : DbState :=
  { s with
    entries := s.entries ++ [{
      id := s.nextEntryId
      userId := uid
      foodName := i.foodName
      mealTime := i.mealTime
      calories := i.calories
      protein := i.protein
      carbs := i.carbs
      fats := i.fats
      quantity := i.quantity
      unit := i.unit
      imageUrl := i.imageUrl
      barcode := i.barcode
      source := i.source
      createdAt := now
      date := i.date }]
    nextEntryId := s.nextEntryId + 1 }

/-- Models `getFoodEntriesByDate(userId, date)`: select the caller's rows whose
`date` lies in `[startOfDay, endOfDay]`, ordered by `createdAt` (a stable
sort of the table's insertion order). -/
def getFoodEntriesByDate (tz : ℤ) (s : DbState) (uid : ℕ) (date : ℤ) : List FoodEntry :=
  List.insertionSort createdLe (s.entries.filter (entryInWindow tz uid date))

/-- Models `deleteFoodEntry(id, userId)`: delete rows matching both the id and the
owner; a row owned by someone else is silently left in place. -/
def deleteFoodEntry (s : DbState) (id uid : ℕ) : DbState :=
  { s with entries := s.entries.filter (fun e => !decide (e.id = id ∧ e.userId = uid)) }

/-- Merge a partial update into a stored row (drizzle `.set(data)` with the
absent fields untouched). -/
def applyUpdate (e : FoodEntry) (d : UpdateFoodData) : FoodEntry :=
  { e with
    foodName := d.foodName.getD e.foodName
    mealTime := d.mealTime.getD e.mealTime
    calories := d.calories.getD e.calories
    protein := d.protein.getD e.protein
    carbs := d.carbs.getD e.carbs
    fats := d.fats.getD e.fats
    quantity := d.quantity.getD e.quantity
    unit := d.unit.getD e.unit
    imageUrl := (d.imageUrl.map Option.some).getD e.imageUrl
    barcode := (d.barcode.map Option.some).getD e.barcode
    source := d.source.getD e.source
    date := d.date.getD e.date }

/-- Models `updateFoodEntry(id, userId, data)`: update rows matching both the id and
the owner. -/
def updateFoodEntry (s : DbState) (id uid : ℕ) (d : UpdateFoodData) : DbState :=
  { s with
    entries := s.entries.map
      (fun e => if e.id = id ∧ e.userId = uid then applyUpdate e d else e) }

/-- Models `getDailySummary(userId, date)`: the (first) summary row keyed by the
owner and the truncated day, or `none`. -/
def getDailySummary (tz : ℤ) (s : DbState) (uid : ℕ) (date : ℤ) : Option SummaryRow :=
  s.summaries.find? (fun r => decide (r.userId = uid ∧ r.date = startOfDay tz date))

/-- Models `upsertDailySummary(userId, date, totals)`: overwrite the four totals of
the existing row for that (user, day), or insert a fresh row keyed by the
truncated day. All four totals are always supplied by the callers, so the
`|| 0` defaults of the insert branch are the values themselves. -/
def upsertDailySummary (tz : ℤ) (s : DbState) (uid : ℕ) (date : ℤ) (t : Totals) : DbState :=
  match getDailySummary tz s uid date with
  | some existing =>
    { s with
      summaries := s.summaries.map (fun r =>
        if r.id = existing.id then
          { r with
            totalCalories := t.totalCalories
            totalProtein := t.totalProtein
            totalCarbs := t.totalCarbs
            totalFats := t.totalFats }
        else r) }
  | none =>
    { s with
      summaries := s.summaries ++ [{
        id := s.nextSummaryId
        userId := uid
        date := startOfDay tz date
        totalCalories := t.totalCalories
        totalProtein := t.totalProtein
        totalCarbs := t.totalCarbs
        totalFats := t.totalFats }]
      nextSummaryId := s.nextSummaryId + 1 }

/-- Models `getUserGoals(userId)`: the (first) goals row of the user, or `none`. -/
def getUserGoals (s : DbState) (uid : ℕ) : Option GoalsRow :=
  s.goals.find? (fun r => decide (r.userId = uid))

/-- Merge a partial goals update into a stored row (drizzle `.set(data)`). -/
def applyGoalsUpdate (r : GoalsRow) (d : UpdateGoalsInput) : GoalsRow :=
  { r with
    height := (d.height.map Option.some).getD r.height
    weight := (d.weight.map Option.some).getD r.weight
    age := (d.age.map Option.some).getD r.age
    gender := (d.gender.map Option.some).getD r.gender
    activityLevel := (d.activityLevel.map Option.some).getD r.activityLevel
    dailyCalories := d.dailyCalories.getD r.dailyCalories
    dailyProtein := d.dailyProtein.getD r.dailyProtein
    dailyCarbs := d.dailyCarbs.getD r.dailyCarbs
    dailyFats := d.dailyFats.getD r.dailyFats }

/-- Models `upsertUserGoals(userId, data)`: merge into the existing row, or insert a
new row `{userId, ...data}` whose omitted daily targets take the schema
defaults 2000/150/250/65. -/
def upsertUserGoals (s : DbState) (uid : ℕ) (d : UpdateGoalsInput) : DbState :=
  match getUserGoals s uid with
  | some _ =>
    { s with goals := s.goals.map (fun r => if r.userId = uid then applyGoalsUpdate r d else r) }
  | none =>
    { s with
      goals := s.goals ++ [{
        id := s.nextGoalsId
        userId := uid
        height := d.height
        weight := d.weight
        age := d.age
        gender := d.gender
        activityLevel := d.activityLevel
        dailyCalories := d.dailyCalories.getD 2000
        dailyProtein := d.dailyProtein.getD 150
        dailyCarbs := d.dailyCarbs.getD 250
        dailyFats := d.dailyFats.getD 65 }]
      nextGoalsId := s.nextGoalsId + 1 }

end Db

/-- A failure of the zod input validation layer; tRPC rejects the request
before the handler runs, so no state change accompanies it. -/
inductive ValidationError
  | outOfRange
deriving DecidableEq, Repr

/-- A failure of the external LLM collaborator: the request threw, or the
response carried no parseable content. -/
inductive LlmError
  | requestFailed
  | noContent
deriving DecidableEq, Repr

/-- The structured output of the food-image LLM analysis. -/
structure FoodAnalysis where
  foodName : String
  calories : ℚ
  protein : ℚ
  carbs : ℚ
  fats : ℚ
  quantity : ℚ
  unit : String
deriving DecidableEq, Repr

/-- The structured output of the barcode LLM analysis. -/
structure BarcodeAnalysis where
  foodName : String
  calories : ℚ
  protein : ℚ
  carbs : ℚ
  fats : ℚ
  servingSize : ℚ
  servingUnit : String
deriving DecidableEq, Repr

/-- The structured output of the inline macro-estimation LLM call. -/
structure MacroAnalysis where
  calories : ℚ
  protein : ℚ
  carbs : ℚ
  fats : ℚ
deriving DecidableEq, Repr

/-- The `{success: true}` result shape of `deleteFood`/`updateFood`. -/
structure MutationResult where
  success : Bool
deriving DecidableEq, Repr

/-- The goal fields the dashboard consumes from `getGoals`; when a stored row
exists the result is that row (projected here to its daily-target columns),
otherwise the literal default object. -/
structure GoalsView where
  dailyCalories : ℤ
  dailyProtein : ℚ
  dailyCarbs : ℚ
  dailyFats : ℚ
deriving DecidableEq, Repr

namespace FoodRouter

/-- The `entries.reduce` accumulation the router performs for the daily
summary. The `(e.protein || 0)` guards in the source are identities here:
the macro columns are `notNull` floats. -/
def reduceTotals (es : List FoodEntry) : Totals :=
  es.foldl
    (fun acc e =>
      { totalCalories := acc.totalCalories + e.calories
        totalProtein := acc.totalProtein + e.protein
        totalCarbs := acc.totalCarbs + e.carbs
        totalFats := acc.totalFats + e.fats })
    { totalCalories := 0, totalProtein := 0, totalCarbs := 0, totalFats := 0 }

/-- The bounds of `AddFoodEntrySchema`: non-empty name, integer
`calories ≥ 0` (integrality is the `ℤ` type here), macros `≥ 0`. -/
def validAddFood (i : AddFoodInput) : Bool :=
  decide (1 ≤ i.foodName.length ∧ 0 ≤ i.calories ∧ 0 ≤ i.protein ∧ 0 ≤ i.carbs ∧ 0 ≤ i.fats)

/-- The bounds of `AddFoodEntrySchema.partial()`: the same constraints on
whichever fields are present. -/
def validUpdateData (d : UpdateFoodData) : Bool :=
  d.foodName.all (fun n => decide (1 ≤ n.length)) &&
  d.calories.all (fun c => decide (0 ≤ c)) &&
  d.protein.all (fun p => decide (0 ≤ p)) &&
  d.carbs.all (fun c => decide (0 ≤ c)) &&
  d.fats.all (fun f => decide (0 ≤ f))

/-- Models `foodRouter.addFood`: validate, insert the entry, then recompute and
upsert the daily summary from the freshly queried entries of that day. -/
def addFood (tz now : ℤ) (s : DbState) (uid : ℕ) (i : AddFoodInput) :
    Except ValidationError DbState :=
  if validAddFood i then
    let s1 := Db.addFoodEntry s now uid i
    let entries := Db.getFoodEntriesByDate tz s1 uid i.date
    Except.ok (Db.upsertDailySummary tz s1 uid i.date (reduceTotals entries))
  else
    Except.error ValidationError.outOfRange

/-- Models `foodRouter.deleteFood`: delete (owner-filtered) and report
`{success: true}`; the daily summary is not recomputed here. -/
def deleteFood (s : DbState) (uid id : ℕ) : DbState × MutationResult :=
  (Db.deleteFoodEntry s id uid, { success := true })

/-- Models `foodRouter.updateFood`: validate the partial payload, update
(owner-filtered) and report `{success: true}`; the daily summary is not
recomputed here. -/
def updateFood (s : DbState) (uid id : ℕ) (d : UpdateFoodData) :
    Except ValidationError (DbState × MutationResult) :=
  if validUpdateData d then
    Except.ok (Db.updateFoodEntry s id uid d, { success := true })
  else
    Except.error ValidationError.outOfRange

/-- Models `foodRouter.getDailySummary`: the stored row's totals, or the literal
zero object when no row exists (`summary || {...0}`); the result is total,
never null. -/
def getDailySummary (tz : ℤ) (s : DbState) (uid : ℕ) (date : ℤ) : Totals :=
  match Db.getDailySummary tz s uid date with
  | some r =>
    { totalCalories := r.totalCalories
      totalProtein := r.totalProtein
      totalCarbs := r.totalCarbs
      totalFats := r.totalFats }
  | none => { totalCalories := 0, totalProtein := 0, totalCarbs := 0, totalFats := 0 }

/-- Models `foodRouter.analyzeImage`: on LLM failure the error is rethrown and no
write happens; on success the analysis values are stored as-is (calories
rounded, no non-negativity check) and the daily summary is recomputed. -/
def analyzeImage (tz now : ℤ) (llm : Except LlmError FoodAnalysis) (s : DbState) (uid : ℕ)
    (imageUrl : String) (mealTime : MealTime) (date : ℤ) : Except LlmError DbState :=
  match llm with
  | Except.error e => Except.error e
  | Except.ok a =>
    let s1 := Db.addFoodEntry s now uid {
      foodName := a.foodName
      mealTime := mealTime
      calories := jsRound a.calories
      protein := a.protein
      carbs := a.carbs
      fats := a.fats
      quantity := a.quantity
      unit := a.unit
      imageUrl := some imageUrl
      barcode := none
      source := FoodSource.image
      date := date }
    let entries := Db.getFoodEntriesByDate tz s1 uid date
    Except.ok (Db.upsertDailySummary tz s1 uid date (reduceTotals entries))

/-- Models `foodRouter.analyzeBarcode`: same shape as `analyzeImage`, with the
serving fields mapped onto `quantity`/`unit` and the barcode recorded. -/
def analyzeBarcode (tz now : ℤ) (llm : Except LlmError BarcodeAnalysis) (s : DbState) (uid : ℕ)
    (barcode : String) (mealTime : MealTime) (date : ℤ) : Except LlmError DbState :=
  match llm with
  | Except.error e => Except.error e
  | Except.ok a =>
    let s1 := Db.addFoodEntry s now uid {
      foodName := a.foodName
      mealTime := mealTime
      calories := jsRound a.calories
      protein := a.protein
      carbs := a.carbs
      fats := a.fats
      quantity := a.servingSize
      unit := a.servingUnit
      imageUrl := none
      barcode := some barcode
      source := FoodSource.barcode
      date := date }
    let entries := Db.getFoodEntriesByDate tz s1 uid date
    Except.ok (Db.upsertDailySummary tz s1 uid date (reduceTotals entries))

/-- Models `foodRouter.calculateMacros`: the inline estimate-while-typing path; a
failed or empty LLM response is caught and replaced by zeroed macros. -/
def calculateMacros (llm : Except LlmError MacroAnalysis) : MacroAnalysis :=
  match llm with
  | Except.ok a => a
  | Except.error _ => { calories := 0, protein := 0, carbs := 0, fats := 0 }

/-- Models `foodRouter.getGoals`: a pure read; the stored row's daily targets, or
the literal default object `{2000, 150, 250, 65}`. The returned state is the
input state: the query writes nothing. -/
def getGoals (s : DbState) (uid : ℕ) : GoalsView × DbState :=
  (match Db.getUserGoals s uid with
   | some r =>
     { dailyCalories := r.dailyCalories
       dailyProtein := r.dailyProtein
       dailyCarbs := r.dailyCarbs
       dailyFats := r.dailyFats }
   | none => { dailyCalories := 2000, dailyProtein := 150, dailyCarbs := 250, dailyFats := 65 },
   s)

/-- The zod bounds of `updateGoals`: `dailyCalories ∈ [500, 10000]` (integer),
`dailyProtein, dailyFats ∈ [0, 500]`, `dailyCarbs ∈ [0, 1000]`, each checked
only when the field is present. -/
def validGoalsInput (d : UpdateGoalsInput) : Bool :=
  d.dailyCalories.all (fun c => decide (500 ≤ c ∧ c ≤ 10000)) &&
  d.dailyProtein.all (fun p => decide (0 ≤ p ∧ p ≤ 500)) &&
  d.dailyCarbs.all (fun c => decide (0 ≤ c ∧ c ≤ 1000)) &&
  d.dailyFats.all (fun f => decide (0 ≤ f ∧ f ≤ 500))

/-- Models `foodRouter.updateGoals`: zod validation, then the goals upsert. -/
def updateGoals (s : DbState) (uid : ℕ) (d : UpdateGoalsInput) :
    Except ValidationError DbState :=
  if validGoalsInput d then Except.ok (Db.upsertUserGoals s uid d)
  else Except.error ValidationError.outOfRange

end FoodRouter

namespace BMICalculator

/-- The `ACTIVITY_MULTIPLIERS` record of `BMICalculator.tsx`. -/
def ACTIVITY_MULTIPLIERS : List (String × ℚ) :=
  [("sedentary", 1.2), ("light", 1.375), ("moderate", 1.55), ("active", 1.725), ("veryActive", 1.9)]

/-- Models `ACTIVITY_MULTIPLIERS[activityLevel] || 1.55`: an unrecognized level
falls back to 1.55 (no multiplier in the table is zero, so the JS falsy
fallback is exactly the missing-key fallback). -/
def activityMultiplier (level : String) : ℚ :=
  (ACTIVITY_MULTIPLIERS.lookup level).getD 1.55

/-- Mifflin-St Jeor BMR as coded: `gender === "male"` gets `+5`, every other
gender gets `−161`. Arguments: weight kg, height cm, age years. -/
def calcBMR (gender : String) (w h a : ℚ) : ℚ :=
  if gender = "male" then 10 * w + 6.25 * h - 5 * a + 5
  else 10 * w + 6.25 * h - 5 * a - 161

/-- TDEE and the goal adjustment: `lose` ×0.85, `gain` ×1.1, otherwise the
TDEE unchanged. -/
def calcAdjustedCalories (gender : String) (w h a : ℚ) (activity goal : String) : ℚ :=
  let tdee := calcBMR gender w h a * activityMultiplier activity
  if goal = "lose" then tdee * 0.85
  else if goal = "gain" then tdee * 1.1
  else tdee

/-- The macro ratios (protein, carb, fat) chosen in `calculateMacros`:
initialized to the maintain split and overwritten for `lose`/`gain`. -/
def macroRatios (goal : String) : ℚ × ℚ × ℚ :=
  if goal = "lose" then (0.35, 0.4, 0.25)
  else if goal = "gain" then (0.3, 0.5, 0.2)
  else (0.3, 0.45, 0.25)

/-- The gram suggestions returned by `calculateMacros`. -/
structure MacroSuggestion where
  protein : ℤ
  carbs : ℤ
  fats : ℤ
deriving DecidableEq, Repr

/-- Models `calculateMacros(calories, goal)` of `BMICalculator.tsx`: grams at
4/4/9 kcal per gram, `Math.round`ed. -/
def calculateMacros (calories : ℚ) (goal : String) : MacroSuggestion :=
  let r := macroRatios goal
  { protein := jsRound (calories * r.1 / 4)
    carbs := jsRound (calories * r.2.1 / 4)
    fats := jsRound (calories * r.2.2 / 9) }

/-- What `calculateBMI` hands to `onCalculate` (minus the echoed inputs):
the rounded adjusted calories and the macro grams. -/
structure BMIOutput where
  dailyCalories : ℤ
  protein : ℤ
  carbs : ℤ
  fats : ℤ
deriving DecidableEq, Repr

/-- The numeric core of `calculateBMI` (after input parsing): adjusted
calories from BMR × activity × goal factor, then the macro split.
Arguments: height cm, weight kg, age years. -/
def calculateBMIOutput (h w a : ℚ) (gender activity goal : String) : BMIOutput :=
  let adjusted := calcAdjustedCalories gender w h a activity goal
  let m := calculateMacros adjusted goal
  { dailyCalories := jsRound adjusted
    protein := m.protein
    carbs := m.carbs
    fats := m.fats }

end BMICalculator

/-! ## Shared invariants and helper lemmas -/

/-- The non-negativity invariant the spec claims for stored entries. -/
def nonNegEntry (e : FoodEntry) : Prop :=
  0 ≤ e.calories ∧ 0 ≤ e.protein ∧ 0 ≤ e.carbs ∧ 0 ≤ e.fats

/-- Rounding a non-negative quantity yields a non-negative integer. -/
theorem jsRound_nonneg {q : ℚ} (hq : 0 ≤ q) : 0 ≤ jsRound q := by
  rw [jsRound_eq_floor]
  refine Int.le_floor.mpr ?_
  push_cast
  linarith

/-- The daily-summary upsert writes only the `dailySummary` table. -/
theorem upsertDailySummary_entries (tz : ℤ) (s : DbState) (uid : ℕ) (date : ℤ) (t : Totals) :
    (Db.upsertDailySummary tz s uid date t).entries = s.entries := by
  unfold Db.upsertDailySummary
  cases Db.getDailySummary tz s uid date <;> rfl

/-- A delete whose (id, owner) pair matches no stored row is the identity on
the state. -/
theorem deleteFoodEntry_eq_self {s : DbState} {id uid : ℕ}
    (h : ∀ e ∈ s.entries, ¬(e.id = id ∧ e.userId = uid)) :
    Db.deleteFoodEntry s id uid = s := by
  unfold Db.deleteFoodEntry
  have he : s.entries.filter (fun e => !decide (e.id = id ∧ e.userId = uid)) = s.entries :=
    List.filter_eq_self.mpr (fun a ha => by
      rw [Bool.not_eq_true', decide_eq_false_iff_not]
      exact h a ha)
  rw [he]

/-- An update whose (id, owner) pair matches no stored row is the identity on
the state. -/
theorem updateFoodEntry_eq_self {s : DbState} {id uid : ℕ} {d : UpdateFoodData}
    (h : ∀ e ∈ s.entries, ¬(e.id = id ∧ e.userId = uid)) :
    Db.updateFoodEntry s id uid d = s := by
  unfold Db.updateFoodEntry
  have he : ∀ e ∈ s.entries,
      (if e.id = id ∧ e.userId = uid then Db.applyUpdate e d else e) = e :=
    fun e hmem => if_neg (h e hmem)
  rw [List.map_congr_left he, List.map_id']

/-- An `Option.all` bound transfers to `getD` when the fallback also satisfies the
predicate. -/
theorem option_all_getD {α : Type} {p : α → Bool} {o : Option α} {x : α}
    (ho : o.all p = true) (hx : p x = true) : p (o.getD x) = true := by
  cases o with
  | none => exact hx
  | some a => exact ho

/-- A validated partial update keeps a non-negative entry non-negative. -/
theorem applyUpdate_nonneg {e : FoodEntry} {d : UpdateFoodData}
    (he : nonNegEntry e) (hd : FoodRouter.validUpdateData d = true) :
    nonNegEntry (Db.applyUpdate e d) := by
  obtain ⟨h1, h2, h3, h4⟩ := he
  rw [FoodRouter.validUpdateData] at hd
  simp only [Bool.and_eq_true] at hd
  obtain ⟨⟨⟨⟨-, hc⟩, hp⟩, hcb⟩, hf⟩ := hd
  refine ⟨?_, ?_, ?_, ?_⟩
  · show 0 ≤ d.calories.getD e.calories
    exact of_decide_eq_true
      (@option_all_getD ℤ (fun c => decide (0 ≤ c)) d.calories e.calories hc (decide_eq_true h1))
  · show 0 ≤ d.protein.getD e.protein
    exact of_decide_eq_true
      (@option_all_getD ℚ (fun p => decide (0 ≤ p)) d.protein e.protein hp (decide_eq_true h2))
  · show 0 ≤ d.carbs.getD e.carbs
    exact of_decide_eq_true
      (@option_all_getD ℚ (fun p => decide (0 ≤ p)) d.carbs e.carbs hcb (decide_eq_true h3))
  · show 0 ≤ d.fats.getD e.fats
    exact of_decide_eq_true
      (@option_all_getD ℚ (fun p => decide (0 ≤ p)) d.fats e.fats hf (decide_eq_true h4))

/-! ## Shared concrete scenario -/

/-- A fresh store. -/
def emptyState : DbState :=
  { entries := [], summaries := [], goals := []
    nextEntryId := 1, nextSummaryId := 1, nextGoalsId := 1 }

/-- A plain manual entry: 300 kcal, 10 g protein, 20 g carbs, 5 g fats,
logged for the first day (timestamp 100, within day 0 at offset 0). -/
def appleInput : AddFoodInput :=
  { foodName := "apple", mealTime := MealTime.morning, calories := 300, protein := 10
    carbs := 20, fats := 5, quantity := 1, unit := "serving", imageUrl := none
    barcode := none, source := FoodSource.manual, date := 100 }

/-- The row `addFood` creates for `appleInput` (id 1, `createdAt` 50). -/
def appleEntry : FoodEntry :=
  { id := 1, userId := 1, foodName := "apple", mealTime := MealTime.morning
    calories := 300, protein := 10, carbs := 20, fats := 5, quantity := 1, unit := "serving"
    imageUrl := none, barcode := none, source := FoodSource.manual, createdAt := 50, date := 100 }

/-- The summary row `addFood` upserts for `appleInput`. -/
def appleSummary : SummaryRow :=
  { id := 1, userId := 1, date := 0, totalCalories := 300, totalProtein := 10
    totalCarbs := 20, totalFats := 5 }

/-- The store after `addFood emptyState appleInput`. -/
def stateAfterApple : DbState :=
  { entries := [appleEntry], summaries := [appleSummary], goals := []
    nextEntryId := 2, nextSummaryId := 2, nextGoalsId := 1 }

/-- The store after user 1 then deletes entry 1: the entry is gone but the
summary row still carries the old totals. -/
def stateAfterDelete : DbState :=
  { entries := [], summaries := [appleSummary], goals := []
    nextEntryId := 2, nextSummaryId := 2, nextGoalsId := 1 }

/-! ## C1 — summary recompute after delete/update -/

/-- Claim C1 demands that the stored `DailySummary` equal the entry sums
after every add, edit and delete. The code violates it: `deleteFood` (and
`updateFood`) never recompute the summary. Concretely: add one 300 kcal
entry (summary becomes 300), delete it — the day then has no entries, yet
the stored and served summary still reports 300 ≠ 0. -/
theorem summary_stale_after_delete :
    FoodRouter.addFood 0 50 emptyState 1 appleInput = Except.ok stateAfterApple ∧
    FoodRouter.deleteFood stateAfterApple 1 1 = (stateAfterDelete, { success := true }) ∧
    Db.getFoodEntriesByDate 0 stateAfterDelete 1 100 = [] ∧
    FoodRouter.reduceTotals (Db.getFoodEntriesByDate 0 stateAfterDelete 1 100) =
      { totalCalories := 0, totalProtein := 0, totalCarbs := 0, totalFats := 0 } ∧
    FoodRouter.getDailySummary 0 stateAfterDelete 1 100 =
      { totalCalories := 300, totalProtein := 10, totalCarbs := 20, totalFats := 5 } := by
  refine ⟨?_, ?_, ?_, ?_, ?_⟩ <;> with_unfolding_all rfl

/-! ## C8 — BMI/TDEE derivation -/

/-- Claim C8's worked example asserts TDEE ≈ 2742 with macros 206/309/76 for
(height 175, weight 75, age 28, male, moderate, maintain). The code's own
formula gives BMR = 1708.75, TDEE = 1708.75 × 1.55 = 2648.5625, hence
2649 kcal and macros 199/298/74 — the spec's example arithmetic
(BMR "=" 1768.75) contradicts the formula it states. -/
theorem bmi_example_deviates :
    BMICalculator.calculateBMIOutput 175 75 28 "male" "moderate" "maintain" =
      { dailyCalories := 2649, protein := 199, carbs := 298, fats := 74 } ∧
    BMICalculator.calcBMR "male" 75 175 28 = 1708.75 ∧
    BMICalculator.calcAdjustedCalories "male" 75 175 28 "moderate" "maintain" = 2648.5625 ∧
    (BMICalculator.calculateBMIOutput 175 75 28 "male" "moderate" "maintain").dailyCalories ≠ 2742 ∧
    (BMICalculator.calculateBMIOutput 175 75 28 "male" "moderate" "maintain").protein ≠ 206 ∧
    (BMICalculator.calculateBMIOutput 175 75 28 "male" "moderate" "maintain").carbs ≠ 309 ∧
    (BMICalculator.calculateBMIOutput 175 75 28 "male" "moderate" "maintain").fats ≠ 76 := by
  refine ⟨?_, ?_, ?_, ?_, ?_, ?_, ?_⟩
  · with_unfolding_all rfl
  · with_unfolding_all rfl
  · with_unfolding_all rfl
  · with_unfolding_all decide
  · with_unfolding_all decide
  · with_unfolding_all decide
  · with_unfolding_all decide

/-- Claim C8, amended: the derivation is the stated pure function — male BMR
`10w + 6.25h − 5a + 5`, otherwise `−161`; TDEE = BMR × multiplier with 1.55
for an unrecognized level; ×0.85 lose / ×1.1 gain / unchanged maintain;
macro grams = calories × ratio / 4, 4, 9 — but the worked example yields
2649 kcal with protein 199 g, carbs 298 g, fats 74 g. -/
theorem bmi_derivation_formulas (w h a c : ℚ) (gender activity goal : String) :
    (gender = "male" →
      BMICalculator.calcBMR gender w h a = 10 * w + 6.25 * h - 5 * a + 5) ∧
    (gender ≠ "male" →
      BMICalculator.calcBMR gender w h a = 10 * w + 6.25 * h - 5 * a - 161) ∧
    (BMICalculator.ACTIVITY_MULTIPLIERS.lookup activity = none →
      BMICalculator.activityMultiplier activity = 1.55) ∧
    (goal = "lose" →
      BMICalculator.calcAdjustedCalories gender w h a activity goal =
        BMICalculator.calcBMR gender w h a * BMICalculator.activityMultiplier activity * 0.85) ∧
    (goal = "gain" →
      BMICalculator.calcAdjustedCalories gender w h a activity goal =
        BMICalculator.calcBMR gender w h a * BMICalculator.activityMultiplier activity * 1.1) ∧
    (goal ≠ "lose" → goal ≠ "gain" →
      BMICalculator.calcAdjustedCalories gender w h a activity goal =
        BMICalculator.calcBMR gender w h a * BMICalculator.activityMultiplier activity) ∧
    (BMICalculator.macroRatios "lose" = (0.35, 0.4, 0.25)) ∧
    (BMICalculator.macroRatios "gain" = (0.3, 0.5, 0.2)) ∧
    (goal ≠ "lose" → goal ≠ "gain" → BMICalculator.macroRatios goal = (0.3, 0.45, 0.25)) ∧
    (BMICalculator.calculateMacros c goal =
      { protein := jsRound (c * (BMICalculator.macroRatios goal).1 / 4)
        carbs := jsRound (c * (BMICalculator.macroRatios goal).2.1 / 4)
        fats := jsRound (c * (BMICalculator.macroRatios goal).2.2 / 9) }) ∧
    (BMICalculator.calculateBMIOutput 175 75 28 "male" "moderate" "maintain" =
      { dailyCalories := 2649, protein := 199, carbs := 298, fats := 74 }) := by
  refine ⟨?_, ?_, ?_, ?_, ?_, ?_, ?_, ?_, ?_, ?_, ?_⟩
  · intro hg; simp [BMICalculator.calcBMR, hg]
  · intro hg; simp [BMICalculator.calcBMR, hg]
  · intro hl; simp [BMICalculator.activityMultiplier, hl]
  · intro hg; simp [BMICalculator.calcAdjustedCalories, hg]
  · intro hg; simp [BMICalculator.calcAdjustedCalories, hg]
  · intro hg hg2; simp [BMICalculator.calcAdjustedCalories, hg, hg2]
  · rfl
  · rfl
  · intro hg hg2; simp [BMICalculator.macroRatios, hg, hg2]
  · rfl
  · with_unfolding_all rfl

/-- Concrete instantiation of `bmi_derivation_formulas`: a non-male BMR, the
unrecognized-activity fallback, the lose-goal adjustment, and the corrected
worked example. -/
theorem bmi_derivation_formulas_witness :
    BMICalculator.calcBMR "female" 60 170 30 = 10 * 60 + 6.25 * 170 - 5 * 30 - 161 ∧
    BMICalculator.activityMultiplier "extreme" = 1.55 ∧
    BMICalculator.calcAdjustedCalories "female" 60 170 30 "extreme" "lose" =
      BMICalculator.calcBMR "female" 60 170 30 * BMICalculator.activityMultiplier "extreme" * 0.85 ∧
    BMICalculator.calculateBMIOutput 175 75 28 "male" "moderate" "maintain" =
      { dailyCalories := 2649, protein := 199, carbs := 298, fats := 74 } :=
  ⟨(bmi_derivation_formulas 60 170 30 0 "female" "extreme" "lose").2.1 (by decide),
   (bmi_derivation_formulas 60 170 30 0 "female" "extreme" "lose").2.2.1 rfl,
   (bmi_derivation_formulas 60 170 30 0 "female" "extreme" "lose").2.2.2.1 rfl,
   (bmi_derivation_formulas 60 170 30 0 "female" "extreme" "lose").2.2.2.2.2.2.2.2.2.2⟩

/-! ## C2 — non-negativity of stored entries -/

/-- An LLM analysis reporting negative nutrition values; the JSON schema of
`analyzeImage`/`analyzeBarcode` constrains types only, not signs. -/
def badAnalysis : FoodAnalysis :=
  { foodName := "mystery", calories := -100, protein := -5, carbs := 2, fats := 1
    quantity := 1, unit := "serving" }

/-- The entry `analyzeImage` stores for `badAnalysis`: the negative values
arrive in the table unchanged (calories rounded). -/
def badEntry : FoodEntry :=
  { id := 1, userId := 1, foodName := "mystery", mealTime := MealTime.noon
    calories := -100, protein := -5, carbs := 2, fats := 1, quantity := 1, unit := "serving"
    imageUrl := some "img", barcode := none, source := FoodSource.image
    createdAt := 50, date := 100 }

/-- The store after the `badAnalysis` image analysis. -/
def badState : DbState :=
  { entries := [badEntry]
    summaries := [{ id := 1, userId := 1, date := 0, totalCalories := -100
                    totalProtein := -5, totalCarbs := 2, totalFats := 1 }]
    goals := [], nextEntryId := 2, nextSummaryId := 2, nextGoalsId := 1 }

/-- Claim C2 as stated fails: the image-analysis path stores whatever the
LLM reports. With `badAnalysis` the persisted entry has calories −100 and
protein −5 g. -/
theorem analyzeImage_stores_negative_entry :
    FoodRouter.analyzeImage 0 50 (Except.ok badAnalysis) emptyState 1 "img" MealTime.noon 100 =
      Except.ok badState ∧
    badEntry ∈ badState.entries ∧
    badEntry.calories < 0 ∧ badEntry.protein < 0 := by
  refine ⟨?_, ?_, ?_, ?_⟩
  · with_unfolding_all rfl
  · with_unfolding_all decide
  · with_unfolding_all decide
  · with_unfolding_all decide

/-- Claim C2, amended: entries written through the zod-validated paths
(`addFood`, `updateFood`) always satisfy the non-negativity invariant
(calories are integers by construction on every path); the LLM paths
(`analyzeImage`, `analyzeBarcode`) preserve it only when the analysis values
themselves are non-negative — they are stored without validation. -/
theorem nonneg_through_mutations (tz now : ℤ) (s : DbState) (uid : ℕ)
    (hs : ∀ e ∈ s.entries, nonNegEntry e) :
    (∀ i s', FoodRouter.addFood tz now s uid i = Except.ok s' →
      ∀ e ∈ s'.entries, nonNegEntry e) ∧
    (∀ id d out, FoodRouter.updateFood s uid id d = Except.ok out →
      ∀ e ∈ out.1.entries, nonNegEntry e) ∧
    (∀ (a : FoodAnalysis) url mt date s',
      FoodRouter.analyzeImage tz now (Except.ok a) s uid url mt date = Except.ok s' →
      0 ≤ a.calories → 0 ≤ a.protein → 0 ≤ a.carbs → 0 ≤ a.fats →
      ∀ e ∈ s'.entries, nonNegEntry e) ∧
    (∀ (b : BarcodeAnalysis) code mt date s',
      FoodRouter.analyzeBarcode tz now (Except.ok b) s uid code mt date = Except.ok s' →
      0 ≤ b.calories → 0 ≤ b.protein → 0 ≤ b.carbs → 0 ≤ b.fats →
      ∀ e ∈ s'.entries, nonNegEntry e) := by
  refine ⟨?_, ?_, ?_, ?_⟩
  · intro i s' hok e he
    rw [FoodRouter.addFood] at hok
    split at hok
    case isTrue hv =>
      simp only [Except.ok.injEq] at hok
      subst hok
      rw [upsertDailySummary_entries] at he
      have hv' := of_decide_eq_true hv
      rcases List.mem_append.mp he with hmem | hmem
      · exact hs e hmem
      · rcases List.mem_singleton.mp hmem with rfl
        exact ⟨hv'.2.1, hv'.2.2.1, hv'.2.2.2.1, hv'.2.2.2.2⟩
    case isFalse hv => exact absurd hok (by simp)
  · intro id d out hok e he
    rw [FoodRouter.updateFood] at hok
    split at hok
    case isTrue hv =>
      simp only [Except.ok.injEq] at hok
      subst hok
      simp only [Db.updateFoodEntry, List.mem_map] at he
      obtain ⟨x, hx, hfx⟩ := he
      by_cases hm : x.id = id ∧ x.userId = uid
      · rw [if_pos hm] at hfx
        rcases hfx with rfl
        exact applyUpdate_nonneg (hs x hx) hv
      · rw [if_neg hm] at hfx
        rcases hfx with rfl
        exact hs x hx
    case isFalse hv => exact absurd hok (by simp)
  · intro a url mt date s' hok hc hp hcb hf e he
    rw [FoodRouter.analyzeImage] at hok
    simp only [Except.ok.injEq] at hok
    subst hok
    rw [upsertDailySummary_entries] at he
    rcases List.mem_append.mp he with hmem | hmem
    · exact hs e hmem
    · rcases List.mem_singleton.mp hmem with rfl
      exact ⟨jsRound_nonneg hc, hp, hcb, hf⟩
  · intro b code mt date s' hok hc hp hcb hf e he
    rw [FoodRouter.analyzeBarcode] at hok
    simp only [Except.ok.injEq] at hok
    subst hok
    rw [upsertDailySummary_entries] at he
    rcases List.mem_append.mp he with hmem | hmem
    · exact hs e hmem
    · rcases List.mem_singleton.mp hmem with rfl
      exact ⟨jsRound_nonneg hc, hp, hcb, hf⟩

/-- Concrete instantiation of `nonneg_through_mutations`: the entry stored by
the sample add is non-negative. -/
theorem nonneg_through_mutations_witness :
    nonNegEntry appleEntry :=
  (nonneg_through_mutations 0 50 emptyState 1 (by simp [emptyState])).1
    appleInput stateAfterApple (by with_unfolding_all rfl)
    appleEntry (by with_unfolding_all decide)

/-! ## C4 — goal defaults on read -/

/-- Claim C4: with no stored goals row, `getGoals` returns exactly the
default targets 2000/150/250/65, and the read writes nothing (the second
component — the state after the query — is always the input state). -/
theorem getGoals_defaults_no_write (s : DbState) (uid : ℕ)
    (h : Db.getUserGoals s uid = none) :
    (FoodRouter.getGoals s uid).1 =
      { dailyCalories := 2000, dailyProtein := 150, dailyCarbs := 250, dailyFats := 65 } ∧
    (∀ s2 uid2, (FoodRouter.getGoals s2 uid2).2 = s2) := by
  constructor
  · simp [FoodRouter.getGoals, h]
  · intro s2 uid2
    rfl

/-- Concrete instantiation of `getGoals_defaults_no_write` on the fresh
store. -/
theorem getGoals_defaults_no_write_witness :
    (FoodRouter.getGoals emptyState 1).1 =
      { dailyCalories := 2000, dailyProtein := 150, dailyCarbs := 250, dailyFats := 65 } :=
  (getGoals_defaults_no_write emptyState 1 rfl).1

/-! ## C5 — zero summary when absent -/

/-- Claim C5: with no stored summary row for the (user, day), the router
serves the literal zero summary; the result type is total, never null. -/
theorem getDailySummary_zero_when_absent (tz : ℤ) (s : DbState) (uid : ℕ) (date : ℤ)
    (h : Db.getDailySummary tz s uid date = none) :
    FoodRouter.getDailySummary tz s uid date =
      { totalCalories := 0, totalProtein := 0, totalCarbs := 0, totalFats := 0 } := by
  simp [FoodRouter.getDailySummary, h]

/-- Concrete instantiation of `getDailySummary_zero_when_absent` on the
fresh store. -/
theorem getDailySummary_zero_when_absent_witness :
    FoodRouter.getDailySummary 0 emptyState 1 100 =
      { totalCalories := 0, totalProtein := 0, totalCarbs := 0, totalFats := 0 } :=
  getDailySummary_zero_when_absent 0 emptyState 1 100 rfl

/-! ## C3 — goal validation and upsert -/

/-- Bool-level `Option.all` of a decidable predicate, as a Prop. -/
theorem option_all_iff {α : Type} {p : α → Prop} [DecidablePred p] {o : Option α} :
    o.all (fun x => decide (p x)) = true ↔ ∀ x ∈ o, p x := by
  cases o <;> simp

/-- The owner `find?` query commutes with the owner-preserving goals update map. -/
theorem find?_goals_map (l : List GoalsRow) (uid : ℕ) (d : UpdateGoalsInput) :
    (l.map (fun x => if x.userId = uid then Db.applyGoalsUpdate x d else x)).find?
        (fun r => decide (r.userId = uid)) =
      (l.find? (fun r => decide (r.userId = uid))).map
        (fun x => if x.userId = uid then Db.applyGoalsUpdate x d else x) := by
  induction l with
  | nil => rfl
  | cons a l ih =>
    by_cases ha : a.userId = uid
    · simp [List.find?_cons, ha, Db.applyGoalsUpdate]
    · simp [List.find?_cons, ha, ih]

/-- Claim C3: `updateGoals` rejects, before any write, exactly the inputs
with a field outside its range (calories [500,10000], protein/fats [0,500],
carbs [0,1000]); any subset of fields may be supplied; the first accepted
call creates the row (absent fields defaulting to 2000/150/250/65), later
accepted calls merge into it; and an accepted `dailyCalories` is what a
subsequent `getGoals` returns. -/
theorem updateGoals_validates_and_upserts (s : DbState) (uid : ℕ) (d : UpdateGoalsInput) :
    (FoodRouter.validGoalsInput d = true ↔
      ((∀ c ∈ d.dailyCalories, 500 ≤ c ∧ c ≤ 10000) ∧
       (∀ p ∈ d.dailyProtein, 0 ≤ p ∧ p ≤ 500) ∧
       (∀ c ∈ d.dailyCarbs, 0 ≤ c ∧ c ≤ 1000) ∧
       (∀ f ∈ d.dailyFats, 0 ≤ f ∧ f ≤ 500))) ∧
    (FoodRouter.validGoalsInput d = false →
      FoodRouter.updateGoals s uid d = Except.error ValidationError.outOfRange) ∧
    (FoodRouter.validGoalsInput d = true →
      FoodRouter.updateGoals s uid d = Except.ok (Db.upsertUserGoals s uid d) ∧
      (Db.getUserGoals s uid = none →
        Db.getUserGoals (Db.upsertUserGoals s uid d) uid = some
          { id := s.nextGoalsId, userId := uid
            height := d.height, weight := d.weight, age := d.age
            gender := d.gender, activityLevel := d.activityLevel
            dailyCalories := d.dailyCalories.getD 2000
            dailyProtein := d.dailyProtein.getD 150
            dailyCarbs := d.dailyCarbs.getD 250
            dailyFats := d.dailyFats.getD 65 }) ∧
      (∀ r, Db.getUserGoals s uid = some r →
        Db.getUserGoals (Db.upsertUserGoals s uid d) uid = some (Db.applyGoalsUpdate r d)) ∧
      (∀ c, d.dailyCalories = some c →
        (FoodRouter.getGoals (Db.upsertUserGoals s uid d) uid).1.dailyCalories = c)) := by
  have hnone : Db.getUserGoals s uid = none →
      Db.getUserGoals (Db.upsertUserGoals s uid d) uid = some
        { id := s.nextGoalsId, userId := uid
          height := d.height, weight := d.weight, age := d.age
          gender := d.gender, activityLevel := d.activityLevel
          dailyCalories := d.dailyCalories.getD 2000
          dailyProtein := d.dailyProtein.getD 150
          dailyCarbs := d.dailyCarbs.getD 250
          dailyFats := d.dailyFats.getD 65 } := by
    intro h0
    rw [Db.upsertUserGoals, h0]
    rw [Db.getUserGoals] at h0 ⊢
    simp [List.find?_append, h0]
  have hsome : ∀ r, Db.getUserGoals s uid = some r →
      Db.getUserGoals (Db.upsertUserGoals s uid d) uid = some (Db.applyGoalsUpdate r d) := by
    intro r hr
    have hr' := hr
    rw [Db.getUserGoals] at hr'
    have hru : r.userId = uid :=
      of_decide_eq_true
        (@List.find?_some GoalsRow (fun x => decide (x.userId = uid)) r s.goals hr')
    rw [Db.upsertUserGoals, hr]
    simp only [Db.getUserGoals]
    rw [find?_goals_map, hr', Option.map_some', if_pos hru]
  refine ⟨?_, ?_, ?_⟩
  · rw [FoodRouter.validGoalsInput]
    simp only [Bool.and_eq_true, option_all_iff]
    tauto
  · intro h
    simp [FoodRouter.updateGoals, h]
  · intro hv
    refine ⟨by simp [FoodRouter.updateGoals, hv], hnone, hsome, ?_⟩
    intro c hc
    cases hG : Db.getUserGoals s uid with
    | none =>
      rw [FoodRouter.getGoals]
      simp [hnone hG, hc]
    | some r =>
      rw [FoodRouter.getGoals]
      simp [hsome r hG, Db.applyGoalsUpdate, hc]

/-- The rejected and accepted calls of the spec's example: 100 kcal is
rejected, 2500 kcal is accepted and read back. -/
def rejectGoals : UpdateGoalsInput :=
  { height := none, weight := none, age := none, gender := none, activityLevel := none
    dailyCalories := some 100, dailyProtein := none, dailyCarbs := none, dailyFats := none }

/-- The accepted update of the spec's example. -/
def acceptGoals : UpdateGoalsInput :=
  { height := none, weight := none, age := none, gender := none, activityLevel := none
    dailyCalories := some 2500, dailyProtein := none, dailyCarbs := none, dailyFats := none }

/-- Concrete instantiation of `updateGoals_validates_and_upserts`:
`{dailyCalories: 100}` rejects; `{dailyCalories: 2500}` is accepted on a
fresh store and a subsequent `getGoals` returns 2500. -/
theorem updateGoals_validates_and_upserts_witness :
    FoodRouter.updateGoals emptyState 1 rejectGoals = Except.error ValidationError.outOfRange ∧
    FoodRouter.updateGoals emptyState 1 acceptGoals =
      Except.ok (Db.upsertUserGoals emptyState 1 acceptGoals) ∧
    (FoodRouter.getGoals (Db.upsertUserGoals emptyState 1 acceptGoals) 1).1.dailyCalories = 2500 := by
  refine ⟨?_, ?_, ?_⟩
  · exact (updateGoals_validates_and_upserts emptyState 1 rejectGoals).2.1 (by decide)
  · exact ((updateGoals_validates_and_upserts emptyState 1 acceptGoals).2.2 (by decide)).1
  · exact ((updateGoals_validates_and_upserts emptyState 1 acceptGoals).2.2
      (by decide)).2.2.2 2500 rfl

/-! ## C6 — ownership boundary -/

/-- Claim C6: deleting an entry owned by A while authenticated as B ≠ A is a
complete no-op (entries, other users' rows and summaries all unchanged, and
`deleteFood` never touches summaries at all); the same ownership filter
confines `updateFood` — rows of other users are never modified. -/
theorem foreign_mutations_noop (s : DbState) (eid A B : ℕ) (d : UpdateFoodData)
    (hAB : B ≠ A) (hOwn : ∀ e ∈ s.entries, e.id = eid → e.userId = A) :
    FoodRouter.deleteFood s B eid = (s, { success := true }) ∧
    (FoodRouter.validUpdateData d = true →
      FoodRouter.updateFood s B eid d = Except.ok (s, { success := true })) ∧
    (∀ s2 uid2 id2, (FoodRouter.deleteFood s2 uid2 id2).1.summaries = s2.summaries) ∧
    (∀ s2 uid2 id2 (d2 : UpdateFoodData) out,
      FoodRouter.updateFood s2 uid2 id2 d2 = Except.ok out →
      ∀ e ∈ s2.entries, e.userId ≠ uid2 → e ∈ out.1.entries) := by
  have hno : ∀ e ∈ s.entries, ¬(e.id = eid ∧ e.userId = B) := by
    intro e he hcontra
    apply hAB
    rw [← hcontra.2]
    exact hOwn e he hcontra.1
  refine ⟨?_, ?_, ?_, ?_⟩
  · rw [FoodRouter.deleteFood, deleteFoodEntry_eq_self hno]
  · intro hv
    rw [FoodRouter.updateFood, if_pos hv, updateFoodEntry_eq_self hno]
  · intro s2 uid2 id2
    rfl
  · intro s2 uid2 id2 d2 out hok e he hne
    rw [FoodRouter.updateFood] at hok
    split at hok
    case isTrue hv =>
      simp only [Except.ok.injEq] at hok
      subst hok
      simp only [Db.updateFoodEntry, List.mem_map]
      exact ⟨e, he, if_neg (fun hc => hne hc.2)⟩
    case isFalse hv => exact absurd hok (by simp)

/-- An empty partial update (no fields supplied). -/
def noUpdate : UpdateFoodData :=
  { foodName := none, mealTime := none, calories := none, protein := none, carbs := none
    fats := none, quantity := none, unit := none, imageUrl := none, barcode := none
    source := none, date := none }

/-- Concrete instantiation of `foreign_mutations_noop`: user 2 deleting or
updating user 1's entry 1 leaves the store untouched yet reports success. -/
theorem foreign_mutations_noop_witness :
    FoodRouter.deleteFood stateAfterApple 2 1 = (stateAfterApple, { success := true }) ∧
    FoodRouter.updateFood stateAfterApple 2 1 noUpdate =
      Except.ok (stateAfterApple, { success := true }) := by
  have h := foreign_mutations_noop stateAfterApple 1 1 2 noUpdate (by decide)
    (by
      intro e he h1
      simp only [stateAfterApple, List.mem_singleton] at he
      subst he
      rfl)
  exact ⟨h.1, h.2.1 rfl⟩

/-! ## C7 — day-window query -/

/-- Claim C7: `getFoodEntriesByDate` returns exactly the caller's entries
dated within [local-midnight, local-midnight + 24h − 1ms] of the supplied
date's day (the first conjunct certifies that `startOfDay` is the local
midnight of that day), ordered by creation timestamp; when the table is in
creation order (monotone `createdAt`), the result is the insertion-ordered
sublist itself. -/
theorem entriesForDay_window_and_order (tz : ℤ) (s : DbState) (uid : ℕ) (date : ℤ) :
    ((startOfDay tz date + tz) % msPerDay = 0 ∧
      startOfDay tz date ≤ date ∧ date < startOfDay tz date + msPerDay ∧
      endOfDay tz date = startOfDay tz date + msPerDay - 1) ∧
    (Db.getFoodEntriesByDate tz s uid date).Perm
      (s.entries.filter (entryInWindow tz uid date)) ∧
    (∀ e, e ∈ Db.getFoodEntriesByDate tz s uid date ↔
      (e ∈ s.entries ∧ e.userId = uid ∧
        startOfDay tz date ≤ e.date ∧ e.date ≤ endOfDay tz date)) ∧
    (Db.getFoodEntriesByDate tz s uid date).Sorted createdLe ∧
    (s.entries.Sorted createdLe →
      Db.getFoodEntriesByDate tz s uid date = s.entries.filter (entryInWindow tz uid date)) := by
  refine ⟨?_, ?_, ?_, ?_, ?_⟩
  · refine ⟨?_, ?_, ?_, ?_⟩
    · simp only [startOfDay, msPerDay]
      omega
    · simp only [startOfDay, msPerDay]
      omega
    · simp only [startOfDay, msPerDay]
      omega
    · simp only [endOfDay, startOfDay, msPerDay]
  · exact List.perm_insertionSort createdLe _
  · intro e
    rw [Db.getFoodEntriesByDate, (List.perm_insertionSort createdLe _).mem_iff]
    simp [List.mem_filter, entryInWindow, and_assoc]
  · exact List.sorted_insertionSort createdLe _
  · intro hsorted
    exact List.Sorted.insertionSort_eq (List.Pairwise.filter _ hsorted)

/-- Concrete instantiation of `entriesForDay_window_and_order`: on the
single-entry store (already in creation order) the query is the filtered
insertion-ordered list, here the one matching entry. -/
theorem entriesForDay_window_and_order_witness :
    Db.getFoodEntriesByDate 0 stateAfterApple 1 100 =
      stateAfterApple.entries.filter (entryInWindow 0 1 100) ∧
    Db.getFoodEntriesByDate 0 stateAfterApple 1 100 = [appleEntry] := by
  constructor
  · exact (entriesForDay_window_and_order 0 stateAfterApple 1 100).2.2.2.2
      (List.sorted_singleton appleEntry)
  · with_unfolding_all rfl

/-! ## C9 — LLM failure handling -/

/-- Claim C9: when the LLM call fails (or returns no content), the inline
`calculateMacros` path degrades to the zero macro object instead of
raising, while `analyzeImage` and `analyzeBarcode` rethrow the error to the
caller (and, returning only the error, write nothing). -/
theorem llm_failure_behavior (err : LlmError) (tz now : ℤ) (s : DbState) (uid : ℕ)
    (url code : String) (mt : MealTime) (date : ℤ) :
    FoodRouter.calculateMacros (Except.error err) =
      { calories := 0, protein := 0, carbs := 0, fats := 0 } ∧
    FoodRouter.analyzeImage tz now (Except.error err) s uid url mt date = Except.error err ∧
    FoodRouter.analyzeBarcode tz now (Except.error err) s uid code mt date = Except.error err :=
  ⟨rfl, rfl, rfl⟩

/-! ## C10 — blind success reporting -/

/-- Claim C10: `deleteFood` and `updateFood` report `{success: true}`
unconditionally; in particular when no row matches (wrong id or another
user's row) the state is unchanged and the caller still receives the same
success result as for a real mutation. -/
theorem mutations_report_success_blindly (s : DbState) (uid id : ℕ) (d : UpdateFoodData) :
    (FoodRouter.deleteFood s uid id).2 = { success := true } ∧
    (∀ out, FoodRouter.updateFood s uid id d = Except.ok out →
      out.2 = { success := true }) ∧
    ((∀ e ∈ s.entries, ¬(e.id = id ∧ e.userId = uid)) →
      FoodRouter.deleteFood s uid id = (s, { success := true }) ∧
      (FoodRouter.validUpdateData d = true →
        FoodRouter.updateFood s uid id d = Except.ok (s, { success := true }))) := by
  refine ⟨rfl, ?_, ?_⟩
  · intro out hok
    rw [FoodRouter.updateFood] at hok
    split at hok
    case isTrue hv =>
      simp only [Except.ok.injEq] at hok
      subst hok
      rfl
    case isFalse hv => exact absurd hok (by simp)
  · intro hno
    refine ⟨?_, ?_⟩
    · rw [FoodRouter.deleteFood, deleteFoodEntry_eq_self hno]
    · intro hv
      rw [FoodRouter.updateFood, if_pos hv, updateFoodEntry_eq_self hno]

/-- Concrete instantiation of `mutations_report_success_blindly`: deleting or
updating the nonexistent entry 99 on a fresh store changes nothing and still
reports `{success: true}`. -/
theorem mutations_report_success_blindly_witness :
    FoodRouter.deleteFood emptyState 1 99 = (emptyState, { success := true }) ∧
    FoodRouter.updateFood emptyState 1 99 noUpdate =
      Except.ok (emptyState, { success := true }) := by
  have h := (mutations_report_success_blindly emptyState 1 99 noUpdate).2.2
    (by simp [emptyState])
  exact ⟨h.1, h.2 rfl⟩

end Calcount
